import Mathlib

/-!
Verification development for the map server (`src/main.go`).

The program accepts a form submission (taxon name, map style, free-text
coordinate list), classifies the first coordinate line against two regular
expressions, builds a record list, dispatches to one of four rendering-engine
entry points, stores the result in a single shared slot (`svgMap`), and serves
that slot on a separate download request (`mapAsFile`).

The definitions below are a shallow embedding of that code:
  * the two regular expressions of `mapSVG` (lines 60 and 63) become
    deterministic scanners over `List Char` (`voucherPattern`,
    `noVoucherPattern`); determinism is faithful because every point of
    choice in the regexes (`\-?`, `(\.\d{0,10})?`, greedy `\d{0,10}`) is
    decided by the next character (digits, `-`, `.` and `,` are pairwise
    disjoint);
  * the external rendering engine (`mapper.*`) is an opaque parameter
    (`Engine`), its four entry points selected exactly as the `switch` in
    `mapSVG` does;
  * the shared slot and the two handlers `mapDisplay` (POST path) and
    `mapAsFile` become pure state-passing functions; the three field
    assignments of `mapDisplay` are additionally modelled as individual
    writes (`SlotWrite`) so that interleavings with a concurrent reader can
    be examined.

The declarative grammars `VoucherLine` / `PlainLine` transcribe the spec's
EBNF (spec section 6) and are proved equivalent to the scanners.
-/

/-- Drop at most `n` leading ASCII digits, embedding the greedy `\d{0,n}`:
it stops at the first non-digit or after `n` digits. -/
def dropDigitsUpTo : Nat → List Char → List Char
  | _, [] => []
  | 0, s => s
  | n + 1, c :: rest => if c.isDigit then dropDigitsUpTo n rest else c :: rest

/-- Embedding of the optional sign `\-?`: a leading `-` must be consumed
(a digit is required next, and `-` is not a digit). -/
def signTail : List Char → List Char
  | c :: rest => if c = '-' then rest else c :: rest
  | [] => []

/-- Embedding of the optional fractional group `(\.\d{0,10})?`: if the next
character is `.` the group must be taken (what follows the group in both
regexes is `,` or end of line, never `.`). -/
def fracTail : List Char → List Char
  | c :: rest => if c = '.' then dropDigitsUpTo 10 rest else c :: rest
  | [] => []

/-- Embedding of the latitude prefix `\-?\d{2}(\.\d{0,10})?` of both regexes:
returns the remaining input on success. -/
def latTail (s : List Char) : Option (List Char) :=
  match signTail s with
  | c1 :: c2 :: rest => if c1.isDigit && c2.isDigit then some (fracTail rest) else none
  | _ => none

/-- Embedding of the longitude part `\d{3}(\.\d{0,10})?` of both regexes. -/
def lonTail (s : List Char) : Option (List Char) :=
  match s with
  | c1 :: c2 :: c3 :: rest =>
      if c1.isDigit && c2.isDigit && c3.isDigit then some (fracTail rest) else none
  | _ => none

/-- Consume the literal `,` of the regexes. -/
def expectComma : List Char → Option (List Char)
  | c :: rest => if c = ',' then some rest else none
  | [] => none

/-- Embedding of the trailing `[01]$` of the voucher regex. -/
def flagEnd : List Char → Bool
  | [f] => f == '0' || f == '1'
  | _ => false

/-- Embedding of `regexp.MatchString` on the voucher regex
`^\-?\d{2}(\.\d{0,10})?,\d{3}(\.\d{0,10})?,[01]$` (src/main.go line 60). -/
def voucherPattern (s : String) : Bool :=
  match latTail s.data with
  | none => false
  | some t1 =>
    match expectComma t1 with
    | none => false
    | some r1 =>
      match lonTail r1 with
      | none => false
      | some t2 =>
        match expectComma t2 with
        | none => false
        | some r2 => flagEnd r2

/-- Embedding of `regexp.MatchString` on the no-voucher regex
`^\-?\d{2}(\.\d{0,10})?,\d{3}(\.\d{0,10})?$` (src/main.go line 63). -/
def noVoucherPattern (s : String) : Bool :=
  match latTail s.data with
  | none => false
  | some t1 =>
    match expectComma t1 with
    | none => false
    | some r1 =>
      match lonTail r1 with
      | none => false
      | some t2 => t2.isEmpty

/-- The three classification outcomes of the first coordinate line. -/
inductive CoordinateFormat
  | Voucher
  | NoVoucher
  | Invalid
deriving DecidableEq, Repr

/-- The classification performed by `mapSVG` (src/main.go lines 66-73): the
voucher regex is tested first, then the no-voucher regex, otherwise the
line is invalid. -/
def classify (s : String) : CoordinateFormat :=
  if voucherPattern s then CoordinateFormat.Voucher
  else if noVoucherPattern s then CoordinateFormat.NoVoucher
  else CoordinateFormat.Invalid

/-- Declarative transcription of the spec's fractional group:
`("." digit{0,10})?`. -/
def FracPart (f : List Char) : Prop :=
  f = [] ∨ ∃ d : List Char, f = '.' :: d ∧ (∀ c ∈ d, c.isDigit = true) ∧ d.length ≤ 10

/-- Declarative transcription of the spec's latitude field:
`"-"? digit{2} ("." digit{0,10})?`. -/
def LatPart (la : List Char) : Prop :=
  ∃ sg i f, (sg = [] ∨ sg = ['-']) ∧ i.length = 2 ∧ (∀ c ∈ i, c.isDigit = true) ∧
    FracPart f ∧ la = sg ++ i ++ f

/-- Declarative transcription of the spec's longitude field:
`digit{3} ("." digit{0,10})?`. -/
def LonPart (lo : List Char) : Prop :=
  ∃ i f, i.length = 3 ∧ (∀ c ∈ i, c.isDigit = true) ∧ FracPart f ∧ lo = i ++ f

/-- Declarative transcription of the spec's `voucher_line` EBNF:
`"-"? digit{2} ("." digit{0,10})? "," digit{3} ("." digit{0,10})? "," ("0"|"1")`. -/
def VoucherLine (s : String) : Prop :=
  ∃ la lo f, LatPart la ∧ LonPart lo ∧ (f = '0' ∨ f = '1') ∧
    s.data = la ++ ',' :: (lo ++ ',' :: [f])

/-- Declarative transcription of the spec's `plain_line` EBNF:
`"-"? digit{2} ("." digit{0,10})? "," digit{3} ("." digit{0,10})?`. -/
def PlainLine (s : String) : Prop :=
  ∃ la lo, LatPart la ∧ LonPart lo ∧ s.data = la ++ ',' :: lo

/-- The continuation after a latitude/longitude field: empty, or a character
that is neither a digit nor `.` (in the lines of interest, a `,`). -/
def sepOK : List Char → Prop
  | [] => True
  | c :: _ => c.isDigit = false ∧ c ≠ '.'

/-- Embedding of Go `strings.ReplaceAll(s, " ", "")` as used on the
`coordinates` form field (src/main.go line 47): every space is deleted. -/
def removeSpaces (s : String) : String :=
  String.mk (s.data.filter (fun c => !(c == ' ')))

/-- Embedding of Go `strings.ReplaceAll` for a single-character pattern and a
single-character replacement, as used on the taxon name (src/main.go
line 128). -/
def replaceAllChar (s : String) (old new : Char) : String :=
  String.mk (s.data.map (fun c => if c = old then new else c))

/-- Embedding of Go `strings.ToLower` (src/main.go line 128), modelled on the
basic latin letters via `Char.toLower`. -/
def goToLower (s : String) : String :=
  String.mk (s.data.map Char.toLower)

/-- The ASCII whitespace recognised by Go `unicode.IsSpace` (the non-ASCII
space code points are not modelled; no claim depends on them). -/
def isSpaceGo (c : Char) : Bool :=
  (c == ' ') || (c == '\t') || (c == '\n') || (c == '\x0b') || (c == '\x0c') || (c == '\r')

/-- Embedding of Go `strings.TrimSpace` (src/main.go lines 47 and 55):
leading and trailing whitespace is removed. -/
def trimGo (s : String) : String :=
  String.mk (((s.data.dropWhile isSpaceGo).reverse.dropWhile isSpaceGo).reverse)

/-- Embedding of Go `strings.Split(s, "\n")[0]` (src/main.go line 55): the
prefix of `s` before the first newline (all of `s` when there is none). -/
def firstLine (s : String) : String :=
  String.mk (s.data.takeWhile (fun c => !(c == '\n')))

/-- The `mapData` structure (src/main.go lines 26-31); the `SVGmap` field is
only handed to the HTML templates and is not modelled. -/
structure MapData where
  TaxonName : String
  MapType : String
  RawCoords : String
deriving DecidableEq

/-- Embedding of `newMapData` (src/main.go lines 42-50) applied to the three
form values `taxon`, `maptype` and `coordinates`. -/
def newMapData (taxon maptype coordinates : String) : MapData :=
  { TaxonName := taxon
    MapType := maptype
    RawCoords := trimGo (removeSpaces coordinates) }

/-- The record lists produced by the external `tasmapper` engine, kept
symbolic: only the constructor used and its arguments matter here
(src/main.go lines 54, 67, 69). -/
inductive RecordList
  | emptyRL
  | voucherList (coords taxon : String)
  | plainList (coords taxon : String)
deriving DecidableEq

/-- The four rendering entry points of the external engine
(src/main.go lines 78-85). -/
inductive EntryPoint
  | voucherMapEP
  | gridMapEP
  | exactMapEP
  | webMapEP
deriving DecidableEq, Repr

/-- The external rendering engine, opaque to this core: each entry point
turns a record list into SVG text written to the buffer. -/
structure Engine where
  voucherMap : RecordList → String
  gridMap : RecordList → String
  exactMap : RecordList → String
  webMap : RecordList → String

/-- Invoke one engine entry point. -/
def callEntry (eng : Engine) (ep : EntryPoint) (rl : RecordList) : String :=
  match ep with
  | EntryPoint.voucherMapEP => eng.voucherMap rl
  | EntryPoint.gridMapEP => eng.gridMap rl
  | EntryPoint.exactMapEP => eng.exactMap rl
  | EntryPoint.webMapEP => eng.webMap rl

/-- The selection made by the `switch data.MapType` of `mapSVG`
(src/main.go lines 75-86): `grid` branches on the voucher pattern, `plain`
and `web` do not, and any other style selects nothing. -/
def selectEntry (voucher : Bool) (mapType : String) : Option EntryPoint :=
  if mapType = "grid" then
    (if voucher then some EntryPoint.voucherMapEP else some EntryPoint.gridMapEP)
  else if mapType = "plain" then some EntryPoint.exactMapEP
  else if mapType = "web" then some EntryPoint.webMapEP
  else none

/-- The buffer contents after the `switch` of `mapSVG`: the selected entry
point's output, or the untouched empty buffer when no case matched. -/
def dispatchOutput (eng : Engine) (voucher : Bool) (mapType : String) (rl : RecordList) : String :=
  match selectEntry voucher mapType with
  | some ep => callEntry eng ep rl
  | none => ""

/-- Which record-list constructor `mapSVG` invoked (src/main.go lines 67, 69). -/
inductive BuilderKind
  | voucherBuilder
  | plainBuilder
deriving DecidableEq

/-- The observable effects of one `mapSVG` call: its return value, the
record-list constructor invoked, the engine entry point invoked, and the
lines written to the error log. -/
structure MapSVGTrace where
  output : String
  builderCalled : Option BuilderKind
  engineCalled : Option EntryPoint
  logged : List String

/-- Embedding of `mapSVG` (src/main.go lines 53-89), instrumented with the
builder/engine calls it performs.  `firstRecord` is the trimmed first line
of the cleaned coordinates; the voucher regex gates the builder choice and
the `grid` sub-branch; an unmatched first line logs the offending line and
returns the fixed message without building or rendering anything. -/
def mapSVGtrace (eng : Engine) (d : MapData) : MapSVGTrace :=
  let firstRecord := trimGo (firstLine d.RawCoords)
  if voucherPattern firstRecord then
    { output := dispatchOutput eng true d.MapType (RecordList.voucherList d.RawCoords d.TaxonName)
      builderCalled := some BuilderKind.voucherBuilder
      engineCalled := selectEntry true d.MapType
      logged := [] }
  else if noVoucherPattern firstRecord then
    { output := dispatchOutput eng false d.MapType (RecordList.plainList d.RawCoords d.TaxonName)
      builderCalled := some BuilderKind.plainBuilder
      engineCalled := selectEntry false d.MapType
      logged := [] }
  else
    { output := "I can\x27t interpret these coordinates"
      builderCalled := none
      engineCalled := none
      logged := ["Coordinates contain an error in the first line and cannot be interpreted "
                   ++ firstRecord] }

/-- The string returned by `mapSVG` (src/main.go line 53). -/
def mapSVG (eng : Engine) (d : MapData) : String :=
  (mapSVGtrace eng d).output

/-- The shared render-cache slot, the `svgMap` struct of src/main.go
lines 34-38 (field order as in the source). -/
structure SvgMap where
  mapName : String
  mapType : String
  svgMap : String
deriving DecidableEq

/-- The slot at process start (`svgm := new(svgMap)`, src/main.go line 207):
Go zero values, every field the empty string. -/
def initialSvgMap : SvgMap :=
  { mapName := "", mapType := "", svgMap := "" }

/-- The derived download filename (src/main.go lines 128-129):
`ReplaceAll(ToLower(taxonName), " ", "-") + "." + mapType + ".svg"`. -/
def derivedMapName (taxonName mapType : String) : String :=
  replaceAllChar (goToLower taxonName) ' ' '-' ++ "." ++ mapType ++ ".svg"

/-- Embedding of the slot mutation performed by a `mapDisplay` POST request
(src/main.go lines 120-131): all three fields are assigned unconditionally,
whatever `mapSVG` returned. -/
def mapDisplayStore (eng : Engine) (_svm : SvgMap) (taxon maptype coordinates : String) : SvgMap :=
  let d := newMapData taxon maptype coordinates
  { mapName := derivedMapName d.TaxonName d.MapType
    mapType := d.MapType
    svgMap := mapSVG eng d }

/-- The response of the download handler: either the fixed no-map message,
or the SVG served with its `Content-Disposition` and `Content-Type`
headers. -/
inductive FileResponse
  | noMap (msg : String)
  | fileServed (contentDisposition contentType body : String)
deriving DecidableEq

/-- Embedding of `mapAsFile` (src/main.go lines 95-106): an empty `svgMap`
field is the absent marker and yields the fixed message; otherwise the slot
is served as an attachment with the stored filename. -/
def mapAsFile (svm : SvgMap) : FileResponse :=
  if svm.svgMap = "" then FileResponse.noMap "There is no map in memory"
  else FileResponse.fileServed ("attachment; filename=" ++ svm.mapName) "image/svg+xml" svm.svgMap

/-- One field assignment of `mapDisplay` (src/main.go lines 127-130),
modelled individually so interleavings with a concurrent reader can be
examined. -/
inductive SlotWrite
  | setMapType (v : String)
  | setMapName (v : String)
  | setSvgMap (v : String)
deriving DecidableEq

/-- Apply one field assignment to the slot. -/
def applyWrite (svm : SvgMap) : SlotWrite → SvgMap
  | SlotWrite.setMapType v => { svm with mapType := v }
  | SlotWrite.setMapName v => { svm with mapName := v }
  | SlotWrite.setSvgMap v => { svm with svgMap := v }

/-- Apply a sequence of field assignments. -/
def applyWrites (svm : SvgMap) (ws : List SlotWrite) : SvgMap :=
  ws.foldl applyWrite svm

/-- The three slot writes of a `mapDisplay` POST request, in source order:
`svm.mapType`, then `svm.mapName`, then `svm.svgMap`
(src/main.go lines 127-130).  No lock is taken around them. -/
def storeWrites (eng : Engine) (taxon maptype coordinates : String) : List SlotWrite :=
  let d := newMapData taxon maptype coordinates
  [SlotWrite.setMapType d.MapType,
   SlotWrite.setMapName (derivedMapName d.TaxonName d.MapType),
   SlotWrite.setSvgMap (mapSVG eng d)]

/-- All slot states visible to a concurrent reader while a write sequence
executes: before any write, between writes, and after the last one. -/
def statesAlong (svm : SvgMap) : List SlotWrite → List SvgMap
  | [] => [svm]
  | w :: ws => svm :: statesAlong (applyWrite svm w) ws

/-- A concrete engine used to evaluate the model on closed inputs: each
entry point returns a distinct constant body. -/
def engC : Engine :=
  { voucherMap := fun _ => "VSVG"
    gridMap := fun _ => "GSVG"
    exactMap := fun _ => "ESVG"
    webMap := fun _ => "WSVG" }

theorem isDigit_ne_dash {c : Char} (h : c.isDigit = true) : c ≠ '-' := by
  intro he; subst he; exact absurd h (by decide)

theorem isDigit_ne_comma {c : Char} (h : c.isDigit = true) : c ≠ ',' := by
  intro he; subst he; exact absurd h (by decide)

theorem isDigit_ne_dot {c : Char} (h : c.isDigit = true) : c ≠ '.' := by
  intro he; subst he; exact absurd h (by decide)

theorem dropDigitsUpTo_sound (s : List Char) :
    ∀ n : Nat, ∃ d, (∀ c ∈ d, c.isDigit = true) ∧ d.length ≤ n ∧
      s = d ++ dropDigitsUpTo n s := by
  induction s with
  | nil =>
    intro n
    exact ⟨[], by simp, by simp, by cases n <;> simp [dropDigitsUpTo]⟩
  | cons c rest ih =>
    intro n
    cases n with
    | zero => exact ⟨[], by simp, by simp, by simp [dropDigitsUpTo]⟩
    | succ m =>
      by_cases h : c.isDigit = true
      · obtain ⟨d, hd, hl, he⟩ := ih m
        refine ⟨c :: d, ?_, ?_, ?_⟩
        · intro x hx
          rcases List.mem_cons.mp hx with rfl | hx
          · exact h
          · exact hd x hx
        · simpa using hl
        · simp only [dropDigitsUpTo, h, if_true]
          exact congrArg (c :: ·) he
      · refine ⟨[], by simp, by simp, ?_⟩
        simp [dropDigitsUpTo, h]

theorem dropDigitsUpTo_complete :
    ∀ (d : List Char) (n : Nat) (r : List Char),
      (∀ c ∈ d, c.isDigit = true) → d.length ≤ n → sepOK r →
      dropDigitsUpTo n (d ++ r) = r := by
  intro d
  induction d with
  | nil =>
    intro n r _ _ hr
    cases r with
    | nil => cases n <;> simp [dropDigitsUpTo]
    | cons c t =>
      obtain ⟨hc, -⟩ := hr
      cases n <;> simp [dropDigitsUpTo, hc]
  | cons a d' ih =>
    intro n r hd hl hr
    cases n with
    | zero => simp at hl
    | succ m =>
      have ha : a.isDigit = true := hd a (List.mem_cons_self a d')
      simp only [List.cons_append, dropDigitsUpTo, ha, if_true]
      exact ih m r (fun c hc => hd c (List.mem_cons_of_mem a hc)) (by simpa using hl) hr

theorem fracTail_sound (s : List Char) : ∃ f, FracPart f ∧ s = f ++ fracTail s := by
  cases s with
  | nil => exact ⟨[], Or.inl rfl, rfl⟩
  | cons c rest =>
    by_cases hc : c = '.'
    · subst hc
      obtain ⟨d, hd, hl, he⟩ := dropDigitsUpTo_sound rest 10
      refine ⟨'.' :: d, Or.inr ⟨d, rfl, hd, hl⟩, ?_⟩
      simp only [fracTail, if_pos rfl]
      exact congrArg ('.' :: ·) he
    · exact ⟨[], Or.inl rfl, by simp [fracTail, hc]⟩

theorem fracTail_complete {f r : List Char} (hf : FracPart f) (hr : sepOK r) :
    fracTail (f ++ r) = r := by
  rcases hf with rfl | ⟨d, rfl, hd, hl⟩
  · cases r with
    | nil => rfl
    | cons c t =>
      obtain ⟨-, hcp⟩ := hr
      simp [fracTail, hcp]
  · simp only [List.cons_append, fracTail, if_pos rfl]
    exact dropDigitsUpTo_complete d 10 r hd hl hr

theorem signTail_sound (s : List Char) :
    ∃ sg, (sg = [] ∨ sg = ['-']) ∧ s = sg ++ signTail s := by
  cases s with
  | nil => exact ⟨[], Or.inl rfl, rfl⟩
  | cons c rest =>
    by_cases hc : c = '-'
    · subst hc
      exact ⟨['-'], Or.inr rfl, by simp [signTail]⟩
    · exact ⟨[], Or.inl rfl, by simp [signTail, hc]⟩

theorem latTail_sound {s t : List Char} (h : latTail s = some t) :
    ∃ la, LatPart la ∧ s = la ++ t := by
  obtain ⟨sg, hsg, hs⟩ := signTail_sound s
  cases hu : signTail s with
  | nil => simp [latTail, hu] at h
  | cons c1 u1 =>
    cases u1 with
    | nil => simp [latTail, hu] at h
    | cons c2 rest =>
      simp only [latTail, hu] at h
      by_cases hd : c1.isDigit && c2.isDigit
      · rw [if_pos hd] at h
        obtain ⟨hd1, hd2⟩ := Bool.and_eq_true_iff.mp hd
        have ht : t = fracTail rest := (Option.some.injEq _ _).mp h |>.symm
        obtain ⟨f, hf, hrest⟩ := fracTail_sound rest
        refine ⟨sg ++ [c1, c2] ++ f, ⟨sg, [c1, c2], f, hsg, rfl, ?_, hf, rfl⟩, ?_⟩
        · intro x hx
          rcases List.mem_cons.mp hx with rfl | hx
          · exact hd1
          · rcases List.mem_cons.mp hx with rfl | hx
            · exact hd2
            · simp at hx
        · calc s = sg ++ (c1 :: c2 :: rest) := by rw [hs, hu]
            _ = sg ++ (c1 :: c2 :: (f ++ fracTail rest)) := by rw [← hrest]
            _ = (sg ++ [c1, c2] ++ f) ++ fracTail rest := by simp
            _ = (sg ++ [c1, c2] ++ f) ++ t := by rw [ht]
      · rw [if_neg hd] at h
        exact absurd h (by simp)

theorem latTail_complete {la r : List Char} (hla : LatPart la) (hr : sepOK r) :
    latTail (la ++ r) = some r := by
  obtain ⟨sg, i, f, hsg, hil, hid, hf, rfl⟩ := hla
  obtain ⟨c1, c2, rfl⟩ := List.length_eq_two.mp hil
  have h1 : c1.isDigit = true := hid c1 (by simp)
  have h2 : c2.isDigit = true := hid c2 (by simp)
  rcases hsg with rfl | rfl
  · have harg : (([] : List Char) ++ [c1, c2] ++ f) ++ r = c1 :: c2 :: (f ++ r) := by simp
    rw [harg]
    simp [latTail, signTail, isDigit_ne_dash h1, h1, h2, fracTail_complete hf hr]
  · have harg : ((['-'] : List Char) ++ [c1, c2] ++ f) ++ r = '-' :: (c1 :: c2 :: (f ++ r)) := by
      simp
    rw [harg]
    simp [latTail, signTail, h1, h2, fracTail_complete hf hr]

theorem lonTail_sound {s t : List Char} (h : lonTail s = some t) :
    ∃ lo, LonPart lo ∧ s = lo ++ t := by
  cases s with
  | nil => simp [lonTail] at h
  | cons c1 u1 =>
    cases u1 with
    | nil => simp [lonTail] at h
    | cons c2 u2 =>
      cases u2 with
      | nil => simp [lonTail] at h
      | cons c3 rest =>
        simp only [lonTail] at h
        by_cases hd : c1.isDigit && c2.isDigit && c3.isDigit
        · rw [if_pos hd] at h
          have ht : t = fracTail rest := (Option.some.injEq _ _).mp h |>.symm
          obtain ⟨hd12, hd3⟩ := Bool.and_eq_true_iff.mp hd
          obtain ⟨hd1, hd2⟩ := Bool.and_eq_true_iff.mp hd12
          obtain ⟨f, hf, hrest⟩ := fracTail_sound rest
          refine ⟨[c1, c2, c3] ++ f, ⟨[c1, c2, c3], f, rfl, ?_, hf, rfl⟩, ?_⟩
          · intro x hx
            rcases List.mem_cons.mp hx with rfl | hx
            · exact hd1
            rcases List.mem_cons.mp hx with rfl | hx
            · exact hd2
            rcases List.mem_cons.mp hx with rfl | hx
            · exact hd3
            · simp at hx
          · calc c1 :: c2 :: c3 :: rest
                = c1 :: c2 :: c3 :: (f ++ fracTail rest) := by rw [← hrest]
              _ = ([c1, c2, c3] ++ f) ++ fracTail rest := by simp
              _ = ([c1, c2, c3] ++ f) ++ t := by rw [ht]
        · rw [if_neg hd] at h
          exact absurd h (by simp)

theorem lonTail_complete {lo r : List Char} (hlo : LonPart lo) (hr : sepOK r) :
    lonTail (lo ++ r) = some r := by
  obtain ⟨i, f, hil, hid, hf, rfl⟩ := hlo
  obtain ⟨c1, c2, c3, rfl⟩ := List.length_eq_three.mp hil
  have h1 : c1.isDigit = true := hid c1 (by simp)
  have h2 : c2.isDigit = true := hid c2 (by simp)
  have h3 : c3.isDigit = true := hid c3 (by simp)
  simp [lonTail, h1, h2, h3, fracTail_complete hf hr]

theorem expectComma_sound {t r : List Char} (h : expectComma t = some r) :
    t = ',' :: r := by
  cases t with
  | nil => simp [expectComma] at h
  | cons c u =>
    by_cases hc : c = ','
    · subst hc
      simp only [expectComma, if_pos rfl] at h
      rw [(Option.some.injEq _ _).mp h]
    · simp [expectComma, hc] at h

theorem voucherPattern_iff {s : String} : voucherPattern s = true ↔ VoucherLine s := by
  constructor
  · intro h
    cases h1 : latTail s.data with
    | none => simp [voucherPattern, h1] at h
    | some t1 =>
      cases h2 : expectComma t1 with
      | none => simp [voucherPattern, h1, h2] at h
      | some r1 =>
        cases h3 : lonTail r1 with
        | none => simp [voucherPattern, h1, h2, h3] at h
        | some t2 =>
          cases h4 : expectComma t2 with
          | none => simp [voucherPattern, h1, h2, h3, h4] at h
          | some r2 =>
            have hflag : flagEnd r2 = true := by
              simpa [voucherPattern, h1, h2, h3, h4] using h
            cases r2 with
            | nil => simp [flagEnd] at hflag
            | cons f r2tl =>
              cases r2tl with
              | cons g r2tl2 => simp [flagEnd] at hflag
              | nil =>
                have hor : f = '0' ∨ f = '1' := by
                  simpa [flagEnd] using hflag
                obtain ⟨la, hla, hsla⟩ := latTail_sound h1
                have ht1 := expectComma_sound h2
                obtain ⟨lo, hlo, hslo⟩ := lonTail_sound h3
                have ht2 := expectComma_sound h4
                refine ⟨la, lo, f, hla, hlo, hor, ?_⟩
                rw [hsla, ht1, hslo, ht2]
  · rintro ⟨la, lo, f, hla, hlo, hf, hs⟩
    have hlat : latTail s.data = some (',' :: (lo ++ ',' :: [f])) := by
      rw [hs]
      have : la ++ ',' :: (lo ++ ',' :: [f]) = la ++ (',' :: (lo ++ ',' :: [f])) := by simp
      rw [this]
      exact latTail_complete hla ⟨by decide, by decide⟩
    have hlon : lonTail (lo ++ ',' :: [f]) = some (',' :: [f]) := by
      exact lonTail_complete hlo ⟨by decide, by decide⟩
    rcases hf with rfl | rfl <;>
      simp [voucherPattern, hlat, hlon, expectComma, flagEnd]

theorem noVoucherPattern_iff {s : String} : noVoucherPattern s = true ↔ PlainLine s := by
  constructor
  · intro h
    cases h1 : latTail s.data with
    | none => simp [noVoucherPattern, h1] at h
    | some t1 =>
      cases h2 : expectComma t1 with
      | none => simp [noVoucherPattern, h1, h2] at h
      | some r1 =>
        cases h3 : lonTail r1 with
        | none => simp [noVoucherPattern, h1, h2, h3] at h
        | some t2 =>
          have ht2e : t2 = [] := by
            have : t2.isEmpty = true := by
              simpa [noVoucherPattern, h1, h2, h3] using h
            simpa [List.isEmpty_iff] using this
          obtain ⟨la, hla, hsla⟩ := latTail_sound h1
          have ht1 := expectComma_sound h2
          obtain ⟨lo, hlo, hslo⟩ := lonTail_sound h3
          refine ⟨la, lo, hla, hlo, ?_⟩
          rw [hsla, ht1, hslo, ht2e]
          simp
  · rintro ⟨la, lo, hla, hlo, hs⟩
    have hlat : latTail s.data = some (',' :: lo) := by
      rw [hs]
      have : la ++ ',' :: lo = la ++ (',' :: lo) := by simp
      rw [this]
      exact latTail_complete hla ⟨by decide, by decide⟩
    have hlon : lonTail (lo ++ []) = some [] := lonTail_complete hlo trivial
    rw [List.append_nil] at hlon
    simp [noVoucherPattern, hlat, hlon, expectComma]

theorem LatPart_comma_not_mem {la : List Char} (h : LatPart la) : ',' ∉ la := by
  obtain ⟨sg, i, f, hsg, -, hid, hf, rfl⟩ := h
  intro hmem
  rcases List.mem_append.mp hmem with hmem | hmem
  · rcases List.mem_append.mp hmem with hmem | hmem
    · rcases hsg with rfl | rfl
      · simp at hmem
      · simp at hmem
    · exact isDigit_ne_comma (hid ',' hmem) rfl
  · rcases hf with rfl | ⟨d, rfl, hd, -⟩
    · simp at hmem
    · rcases List.mem_cons.mp hmem with hdot | hmem
      · exact absurd hdot (by decide)
      · exact isDigit_ne_comma (hd ',' hmem) rfl

theorem LonPart_comma_not_mem {lo : List Char} (h : LonPart lo) : ',' ∉ lo := by
  obtain ⟨i, f, -, hid, hf, rfl⟩ := h
  intro hmem
  rcases List.mem_append.mp hmem with hmem | hmem
  · exact isDigit_ne_comma (hid ',' hmem) rfl
  · rcases hf with rfl | ⟨d, rfl, hd, -⟩
    · simp at hmem
    · rcases List.mem_cons.mp hmem with hdot | hmem
      · exact absurd hdot (by decide)
      · exact isDigit_ne_comma (hd ',' hmem) rfl

theorem VoucherLine_PlainLine_disjoint {s : String} (hv : VoucherLine s) (hp : PlainLine s) :
    False := by
  obtain ⟨la, lo, f, hla, hlo, hf, hs⟩ := hv
  obtain ⟨la2, lo2, hla2, hlo2, hs2⟩ := hp
  have hfne : f ≠ ',' := by
    rcases hf with rfl | rfl <;> decide
  have hcv : s.data.count ',' = 2 := by
    rw [hs]
    simp [List.count_append, List.count_cons,
      List.count_eq_zero.mpr (LatPart_comma_not_mem hla),
      List.count_eq_zero.mpr (LonPart_comma_not_mem hlo), hfne]
  have hcp : s.data.count ',' = 1 := by
    rw [hs2]
    simp [List.count_append, List.count_cons,
      List.count_eq_zero.mpr (LatPart_comma_not_mem hla2),
      List.count_eq_zero.mpr (LonPart_comma_not_mem hlo2)]
  omega

theorem classify_Voucher_iff {s : String} :
    classify s = CoordinateFormat.Voucher ↔ VoucherLine s := by
  constructor
  · intro h
    by_cases hv : voucherPattern s = true
    · exact voucherPattern_iff.mp hv
    · by_cases hn : noVoucherPattern s = true <;> simp [classify, hv, hn] at h
  · intro h
    simp [classify, voucherPattern_iff.mpr h]

theorem classify_NoVoucher_iff {s : String} :
    classify s = CoordinateFormat.NoVoucher ↔ (PlainLine s ∧ ¬ VoucherLine s) := by
  constructor
  · intro h
    by_cases hv : voucherPattern s = true
    · simp [classify, hv] at h
    · by_cases hn : noVoucherPattern s = true
      · exact ⟨noVoucherPattern_iff.mp hn, fun hvl => hv (voucherPattern_iff.mpr hvl)⟩
      · simp [classify, hv, hn] at h
  · rintro ⟨hp, hnv⟩
    have hv : voucherPattern s = false := by
      rcases Bool.eq_false_or_eq_true (voucherPattern s) with h | h
      · exact absurd (voucherPattern_iff.mp h) hnv
      · exact h
    simp [classify, hv, noVoucherPattern_iff.mpr hp]

theorem classify_Invalid_iff {s : String} :
    classify s = CoordinateFormat.Invalid ↔ (¬ VoucherLine s ∧ ¬ PlainLine s) := by
  constructor
  · intro h
    by_cases hv : voucherPattern s = true
    · simp [classify, hv] at h
    · by_cases hn : noVoucherPattern s = true
      · simp [classify, hv, hn] at h
      · exact ⟨fun hvl => hv (voucherPattern_iff.mpr hvl),
          fun hpl => hn (noVoucherPattern_iff.mpr hpl)⟩
  · rintro ⟨hnv, hnp⟩
    have hv : voucherPattern s = false := by
      rcases Bool.eq_false_or_eq_true (voucherPattern s) with h | h
      · exact absurd (voucherPattern_iff.mp h) hnv
      · exact h
    have hn : noVoucherPattern s = false := by
      rcases Bool.eq_false_or_eq_true (noVoucherPattern s) with h | h
      · exact absurd (noVoucherPattern_iff.mp h) hnp
      · exact h
    simp [classify, hv, hn]

theorem char_toNat_ofNat {n : Nat} (h : n.isValidChar) : (Char.ofNat n).toNat = n := by
  rw [Char.ofNat, dif_pos h]
  rfl

theorem char_toLower_eq_space_iff (c : Char) : c.toLower = ' ' ↔ c = ' ' := by
  constructor
  · intro h
    have hdef : c.toLower =
        if c.toNat ≥ 65 ∧ c.toNat ≤ 90 then Char.ofNat (c.toNat + 32) else c := rfl
    rw [hdef] at h
    split at h
    · exfalso
      rename_i hcond
      have hval : (Char.ofNat (c.toNat + 32)).toNat = c.toNat + 32 :=
        char_toNat_ofNat (Or.inl (by omega))
      rw [h] at hval
      have : (' ').toNat = 32 := rfl
      omega
    · exact h
  · rintro rfl
    decide

theorem classify_Invalid_patterns {s : String}
    (h : classify s = CoordinateFormat.Invalid) :
    voucherPattern s = false ∧ noVoucherPattern s = false := by
  by_cases hv : voucherPattern s = true
  · simp [classify, hv] at h
  · by_cases hn : noVoucherPattern s = true
    · simp [classify, hv, hn] at h
    · exact ⟨by simpa using hv, by simpa using hn⟩

/-- Claim C1: for every trimmed first input line, `classify` returns
`Voucher` exactly on the voucher grammar, `NoVoucher` exactly on lines
matching only the plain grammar, and `Invalid` exactly when neither
grammar matches. -/
theorem classify_matches_grammars (s : String) :
    (classify s = CoordinateFormat.Voucher ↔ VoucherLine s) ∧
    (classify s = CoordinateFormat.NoVoucher ↔ (PlainLine s ∧ ¬ VoucherLine s)) ∧
    (classify s = CoordinateFormat.Invalid ↔ (¬ VoucherLine s ∧ ¬ PlainLine s)) :=
  ⟨classify_Voucher_iff, classify_NoVoucher_iff, classify_Invalid_iff⟩

/-- Claim C6: the voucher regex is tested first and wins, and the two
pattern tests are mutually exclusive on any single first line. -/
theorem voucher_precedence_exclusive (s : String) :
    (voucherPattern s = true → classify s = CoordinateFormat.Voucher ∧
      classify s ≠ CoordinateFormat.NoVoucher) ∧
    ¬ (voucherPattern s = true ∧ noVoucherPattern s = true) := by
  constructor
  · intro hv
    exact ⟨by simp [classify, hv], by simp [classify, hv]⟩
  · rintro ⟨hv, hn⟩
    exact VoucherLine_PlainLine_disjoint (voucherPattern_iff.mp hv) (noVoucherPattern_iff.mp hn)

/-- Witness for C6 at a concrete voucher line. -/
theorem voucher_precedence_exclusive_witness :
    voucherPattern "-42.12344,147.43321,1" = true ∧
    classify "-42.12344,147.43321,1" = CoordinateFormat.Voucher :=
  ⟨by decide, ((voucher_precedence_exclusive "-42.12344,147.43321,1").1 (by decide)).1⟩

/-- Claim C2: the dispatcher is a pure selection over (voucher-ness, style):
`grid` branches on the voucher pattern, `plain` and `web` do not, and any
other or unset style selects no entry point and leaves the buffer empty. -/
theorem dispatch_matrix (eng : Engine) (rl : RecordList) (vp : Bool) (mt : String) :
    selectEntry true "grid" = some EntryPoint.voucherMapEP ∧
    selectEntry false "grid" = some EntryPoint.gridMapEP ∧
    selectEntry vp "plain" = some EntryPoint.exactMapEP ∧
    selectEntry vp "web" = some EntryPoint.webMapEP ∧
    dispatchOutput eng true "grid" rl = eng.voucherMap rl ∧
    dispatchOutput eng false "grid" rl = eng.gridMap rl ∧
    dispatchOutput eng vp "plain" rl = eng.exactMap rl ∧
    dispatchOutput eng vp "web" rl = eng.webMap rl ∧
    (mt ≠ "grid" → mt ≠ "plain" → mt ≠ "web" →
      selectEntry vp mt = none ∧ dispatchOutput eng vp mt rl = "") := by
  refine ⟨rfl, rfl, ?_, ?_, rfl, rfl, ?_, ?_, ?_⟩
  · cases vp <;> rfl
  · cases vp <;> rfl
  · cases vp <;> rfl
  · cases vp <;> rfl
  · intro h1 h2 h3
    constructor
    · simp [selectEntry, h1, h2, h3]
    · simp [dispatchOutput, selectEntry, h1, h2, h3]

/-- Witness for C2 at a concrete unrecognized style. -/
theorem dispatch_matrix_witness :
    selectEntry true "satellite" = none ∧
    dispatchOutput engC true "satellite" RecordList.emptyRL = "" :=
  (dispatch_matrix engC RecordList.emptyRL true "satellite").2.2.2.2.2.2.2.2
    (by decide) (by decide) (by decide)

/-- Counterexample to C3 as stated: a store whose computed svg body is empty
(valid coordinates, unrecognized map style) is followed by a load that
reports the no-map response instead of the stored map. -/
theorem cache_empty_store_cex :
    mapDisplayStore engC initialSvgMap "Acacia" "" "-42.12344,147.43321" =
      { mapName := "acacia..svg", mapType := "", svgMap := "" } ∧
    mapAsFile (mapDisplayStore engC initialSvgMap "Acacia" "" "-42.12344,147.43321") =
      FileResponse.noMap "There is no map in memory" := by
  constructor <;> decide

/-- Claim C3 amended: a load before any store yields the fixed no-map
response (not a crash); after a store whose svg body is non-empty the load
returns exactly the stored filename and body; after a store whose svg body
is empty the load reports the no-map response again. -/
theorem cache_load_store_amended (eng : Engine) (svm : SvgMap)
    (taxon maptype coordinates : String) :
    mapAsFile initialSvgMap = FileResponse.noMap "There is no map in memory" ∧
    ((mapDisplayStore eng svm taxon maptype coordinates).svgMap ≠ "" →
      mapAsFile (mapDisplayStore eng svm taxon maptype coordinates) =
        FileResponse.fileServed
          ("attachment; filename=" ++ (mapDisplayStore eng svm taxon maptype coordinates).mapName)
          "image/svg+xml"
          (mapDisplayStore eng svm taxon maptype coordinates).svgMap) ∧
    ((mapDisplayStore eng svm taxon maptype coordinates).svgMap = "" →
      mapAsFile (mapDisplayStore eng svm taxon maptype coordinates) =
        FileResponse.noMap "There is no map in memory") := by
  refine ⟨rfl, ?_, ?_⟩
  · intro h
    simp [mapAsFile, h]
  · intro h
    simp [mapAsFile, h]

/-- Witness for C3 amended at a concrete successful store. -/
theorem cache_load_store_amended_witness :
    (mapDisplayStore engC initialSvgMap "Acacia" "plain" "-42.12344,147.43321").svgMap ≠ "" ∧
    mapAsFile (mapDisplayStore engC initialSvgMap "Acacia" "plain" "-42.12344,147.43321") =
      FileResponse.fileServed
        ("attachment; filename="
          ++ (mapDisplayStore engC initialSvgMap "Acacia" "plain" "-42.12344,147.43321").mapName)
        "image/svg+xml"
        (mapDisplayStore engC initialSvgMap "Acacia" "plain" "-42.12344,147.43321").svgMap :=
  ⟨by decide,
    (cache_load_store_amended engC initialSvgMap "Acacia" "plain" "-42.12344,147.43321").2.1
      (by decide)⟩

/-- Claim C4: when the first line matches neither regex, classification is
terminal: no record-list builder runs, no rendering entry point runs, the
fixed message is returned, and the offending line is logged. -/
theorem invalid_first_line_terminal (eng : Engine) (d : MapData)
    (h : classify (trimGo (firstLine d.RawCoords)) = CoordinateFormat.Invalid) :
    (mapSVGtrace eng d).builderCalled = none ∧
    (mapSVGtrace eng d).engineCalled = none ∧
    (mapSVGtrace eng d).output = "I can\x27t interpret these coordinates" ∧
    (mapSVGtrace eng d).logged =
      ["Coordinates contain an error in the first line and cannot be interpreted "
        ++ trimGo (firstLine d.RawCoords)] := by
  obtain ⟨hv, hn⟩ := classify_Invalid_patterns h
  refine ⟨?_, ?_, ?_, ?_⟩ <;> simp [mapSVGtrace, hv, hn]

/-- Witness for C4 at the spec's malformed line. -/
theorem invalid_first_line_terminal_witness :
    classify (trimGo (firstLine (newMapData "Banksia" "grid" "not,coords").RawCoords)) =
      CoordinateFormat.Invalid ∧
    (mapSVGtrace engC (newMapData "Banksia" "grid" "not,coords")).output =
      "I can\x27t interpret these coordinates" :=
  ⟨by decide,
    (invalid_first_line_terminal engC (newMapData "Banksia" "grid" "not,coords")
      (by decide)).2.2.1⟩

/-- Counterexample to C5 as stated: a display request with an invalid first
line does mutate the cache, replacing every prior field. -/
theorem invalid_request_mutates_cache_cex :
    mapDisplayStore engC { mapName := "prior.svg", mapType := "grid", svgMap := "PRIORSVG" }
        "Banksia" "grid" "not,coords" ≠
      { mapName := "prior.svg", mapType := "grid", svgMap := "PRIORSVG" } ∧
    (mapDisplayStore engC { mapName := "prior.svg", mapType := "grid", svgMap := "PRIORSVG" }
        "Banksia" "grid" "not,coords").svgMap =
      "I can\x27t interpret these coordinates" := by
  constructor <;> decide

/-- Claim C5 amended: on a display request whose first line matches neither
grammar the cache is overwritten all the same: the map type and derived
filename are taken from the submitted form and the svg body becomes the
fixed error message. -/
theorem invalid_request_cache_contents (eng : Engine) (svm : SvgMap)
    (taxon maptype coordinates : String)
    (h : classify (trimGo (firstLine (newMapData taxon maptype coordinates).RawCoords)) =
      CoordinateFormat.Invalid) :
    mapDisplayStore eng svm taxon maptype coordinates =
      { mapName := derivedMapName taxon maptype
        mapType := maptype
        svgMap := "I can\x27t interpret these coordinates" } := by
  obtain ⟨hv, hn⟩ := classify_Invalid_patterns h
  simp [mapDisplayStore, mapSVG, mapSVGtrace, newMapData, derivedMapName] at hv hn ⊢
  simp [hv, hn]

/-- Witness for C5 amended at the spec's malformed line. -/
theorem invalid_request_cache_contents_witness :
    classify (trimGo (firstLine (newMapData "Banksia" "web" "not,coords").RawCoords)) =
      CoordinateFormat.Invalid ∧
    mapDisplayStore engC initialSvgMap "Banksia" "web" "not,coords" =
      { mapName := derivedMapName "Banksia" "web"
        mapType := "web"
        svgMap := "I can\x27t interpret these coordinates" } :=
  ⟨by decide,
    invalid_request_cache_contents engC initialSvgMap "Banksia" "web" "not,coords" (by decide)⟩

/-- Counterexample to C7 as stated: after a successful store (load observes
the map), a second store with an unrecognized style makes the load observe
the no-map response again — a Present-to-Absent transition. -/
theorem present_to_absent_cex :
    mapAsFile (mapDisplayStore engC initialSvgMap "Acacia" "plain" "-42.12344,147.43321") =
      FileResponse.fileServed "attachment; filename=acacia.plain.svg" "image/svg+xml" "ESVG" ∧
    mapAsFile (mapDisplayStore engC
        (mapDisplayStore engC initialSvgMap "Acacia" "plain" "-42.12344,147.43321")
        "Acacia" "satellite" "-42.12344,147.43321") =
      FileResponse.noMap "There is no map in memory" := by
  constructor <;> decide

/-- Claim C7 amended: whether a load observes the absent response after a
store depends only on that store's computed svg body (empty versus
non-empty), regardless of any earlier slot contents; a store whose output
is empty makes loads observe absent even after earlier successful stores. -/
theorem absent_iff_empty_svg (eng : Engine) (svm : SvgMap)
    (taxon maptype coordinates : String) :
    mapAsFile (mapDisplayStore eng svm taxon maptype coordinates) =
        FileResponse.noMap "There is no map in memory" ↔
      mapSVG eng (newMapData taxon maptype coordinates) = "" := by
  constructor
  · intro h
    by_cases he : mapSVG eng (newMapData taxon maptype coordinates) = ""
    · exact he
    · simp [mapAsFile, mapDisplayStore, he] at h
  · intro he
    simp [mapAsFile, mapDisplayStore, he]

/-- Claim C8: the stored download filename is the taxon name with each space
replaced by a hyphen and every letter lowercased, then a dot, the map
style, and `.svg`; a subsequent download serves exactly that filename. -/
theorem download_filename_derivation (eng : Engine) (svm : SvgMap)
    (taxon maptype coordinates : String) :
    (mapDisplayStore eng svm taxon maptype coordinates).mapName =
      String.mk (taxon.data.map (fun c => if c = ' ' then '-' else c.toLower))
        ++ "." ++ maptype ++ ".svg" ∧
    ((mapDisplayStore eng svm taxon maptype coordinates).svgMap ≠ "" →
      mapAsFile (mapDisplayStore eng svm taxon maptype coordinates) =
        FileResponse.fileServed
          ("attachment; filename="
            ++ (String.mk (taxon.data.map (fun c => if c = ' ' then '-' else c.toLower))
              ++ "." ++ maptype ++ ".svg"))
          "image/svg+xml"
          (mapDisplayStore eng svm taxon maptype coordinates).svgMap) := by
  have hname : (mapDisplayStore eng svm taxon maptype coordinates).mapName =
      String.mk (taxon.data.map (fun c => if c = ' ' then '-' else c.toLower))
        ++ "." ++ maptype ++ ".svg" := by
    show derivedMapName taxon maptype = _
    unfold derivedMapName replaceAllChar goToLower
    have hmap : (taxon.data.map Char.toLower).map (fun c => if c = ' ' then '-' else c) =
        taxon.data.map (fun c => if c = ' ' then '-' else c.toLower) := by
      rw [List.map_map]
      apply List.map_congr_left
      intro c _
      by_cases hc : c = ' '
      · subst hc
        simp
      · have : c.toLower ≠ ' ' := fun hl => hc ((char_toLower_eq_space_iff c).mp hl)
        simp [Function.comp, hc, this]
    rw [hmap]
  refine ⟨hname, ?_⟩
  · intro h
    rw [← hname]
    simp [mapAsFile, h]

/-- Witness for C8 at a concrete two-word taxon name. -/
theorem download_filename_derivation_witness :
    (mapDisplayStore engC initialSvgMap "Acacia dealbata" "plain" "-42.12344,147.43321").svgMap
        ≠ "" ∧
    mapAsFile (mapDisplayStore engC initialSvgMap "Acacia dealbata" "plain"
        "-42.12344,147.43321") =
      FileResponse.fileServed
        ("attachment; filename="
          ++ (String.mk ("Acacia dealbata".data.map (fun c => if c = ' ' then '-' else c.toLower))
            ++ "." ++ "plain" ++ ".svg"))
        "image/svg+xml"
        (mapDisplayStore engC initialSvgMap "Acacia dealbata" "plain"
          "-42.12344,147.43321").svgMap :=
  ⟨by decide,
    (download_filename_derivation engC initialSvgMap "Acacia dealbata" "plain"
      "-42.12344,147.43321").2 (by decide)⟩

/-- Counterexample to C9 as stated: the slot writes are not guarded by any
mutual exclusion, so a load that runs between the filename write and the
svg write of a second store observes the new store's filename together with
the first store's body — a mixture of two stores, reachable in the
interleaving model. -/
theorem interleaved_load_mixes_fields_cex :
    applyWrites (mapDisplayStore engC initialSvgMap "a b" "plain" "-42.12344,147.43321")
        ((storeWrites engC "c" "web" "-42.12344,147.43321").take 2) ∈
      statesAlong (mapDisplayStore engC initialSvgMap "a b" "plain" "-42.12344,147.43321")
        (storeWrites engC "c" "web" "-42.12344,147.43321") ∧
    mapAsFile (applyWrites (mapDisplayStore engC initialSvgMap "a b" "plain"
        "-42.12344,147.43321") ((storeWrites engC "c" "web" "-42.12344,147.43321").take 2)) =
      FileResponse.fileServed "attachment; filename=c.web.svg" "image/svg+xml" "ESVG" ∧
    mapAsFile (mapDisplayStore engC initialSvgMap "a b" "plain" "-42.12344,147.43321") =
      FileResponse.fileServed "attachment; filename=a-b.plain.svg" "image/svg+xml" "ESVG" ∧
    mapAsFile (applyWrites (mapDisplayStore engC initialSvgMap "a b" "plain"
        "-42.12344,147.43321") (storeWrites engC "c" "web" "-42.12344,147.43321")) =
      FileResponse.fileServed "attachment; filename=c.web.svg" "image/svg+xml" "WSVG" := by
  refine ⟨?_, ?_, ?_, ?_⟩ <;> decide

/-- Claim C9 amended: the code takes no lock; only when a store's three
writes run without an interleaved reader is the outcome consistent: the
write sequence equals the atomic store, and a load then returns either the
absent response or the complete just-stored map. -/
theorem sequential_store_load_consistent (eng : Engine) (svm : SvgMap)
    (taxon maptype coordinates : String) :
    applyWrites svm (storeWrites eng taxon maptype coordinates) =
      mapDisplayStore eng svm taxon maptype coordinates ∧
    (mapAsFile (mapDisplayStore eng svm taxon maptype coordinates) =
        FileResponse.noMap "There is no map in memory" ∨
      mapAsFile (mapDisplayStore eng svm taxon maptype coordinates) =
        FileResponse.fileServed
          ("attachment; filename=" ++ (mapDisplayStore eng svm taxon maptype coordinates).mapName)
          "image/svg+xml"
          (mapDisplayStore eng svm taxon maptype coordinates).svgMap) := by
  constructor
  · rfl
  · by_cases h : (mapDisplayStore eng svm taxon maptype coordinates).svgMap = ""
    · left
      simp [mapAsFile, h]
    · right
      simp [mapAsFile, h]

/-- Claim C10: an invalid display request stores the fixed error message as
the svg body, so a subsequent download serves that error text as an SVG
attachment instead of reporting that no map is available. -/
theorem invalid_display_then_download_serves_error (eng : Engine) (svm : SvgMap)
    (taxon maptype coordinates : String)
    (h : classify (trimGo (firstLine (newMapData taxon maptype coordinates).RawCoords)) =
      CoordinateFormat.Invalid) :
    (mapDisplayStore eng svm taxon maptype coordinates).svgMap =
      "I can\x27t interpret these coordinates" ∧
    mapAsFile (mapDisplayStore eng svm taxon maptype coordinates) =
      FileResponse.fileServed
        ("attachment; filename=" ++ derivedMapName taxon maptype)
        "image/svg+xml"
        "I can\x27t interpret these coordinates" := by
  obtain ⟨hv, hn⟩ := classify_Invalid_patterns h
  have hsvg : (mapDisplayStore eng svm taxon maptype coordinates).svgMap =
      "I can\x27t interpret these coordinates" := by
    simp [mapDisplayStore, mapSVG, mapSVGtrace, newMapData] at hv hn ⊢
    simp [hv, hn]
  refine ⟨hsvg, ?_⟩
  have hnm : (mapDisplayStore eng svm taxon maptype coordinates).mapName =
      derivedMapName taxon maptype := rfl
  rw [← hnm, ← hsvg]
  simp [mapAsFile, hsvg]

/-- Witness for C10 at the spec's malformed line. -/
theorem invalid_display_then_download_serves_error_witness :
    classify (trimGo (firstLine (newMapData "Banksia" "grid" "not,coords").RawCoords)) =
      CoordinateFormat.Invalid ∧
    mapAsFile (mapDisplayStore engC initialSvgMap "Banksia" "grid" "not,coords") =
      FileResponse.fileServed
        ("attachment; filename=" ++ derivedMapName "Banksia" "grid")
        "image/svg+xml"
        "I can\x27t interpret these coordinates" :=
  ⟨by decide,
    (invalid_display_then_download_serves_error engC initialSvgMap "Banksia" "grid"
      "not,coords" (by decide)).2⟩
